import Mathlib

/-!
Shallow embedding of the WebView2-Win32 example host
(`src/webview2_win32/src/main.rs`): the script to host RPC bridge
(`InvokeMessage` decoding, the `WebMessageReceivedEventHandler` closure in
`WebView::create`, `WebView::resolve`), the cross-thread dispatch queue
(`WebView::dispatch`, the drain phase of `WebView::run`), the blocking
message pump `wait_with_pump`, session teardown (`WebView::terminate`,
`WebView::set_window_webview`), and the frame-window setters
(`WebView::set_title`, `WebView::set_size`).

Platform calls (Win32 message retrieval, window-long storage, window text
and position) are modelled as explicit state; channels (`std::sync::mpsc`)
are modelled as FIFO lists together with a flag recording whether the
receiving end is still alive; a Rust panic (`expect`/`unwrap`) is a
distinguished outcome, never an `Err` return.
-/

/-- JSON values as in `serde_json::Value`. Numbers are modelled as
integers (the example exchanges only integral numbers; the float
representation is irrelevant to the properties proved here). -/
inductive JValue where
  | null
  | bool (b : Bool)
  | num (n : Int)
  | str (s : String)
  | arr (xs : List JValue)
  | obj (fields : List (String × JValue))

/-- Escape one character the way `serde_json` escapes characters inside a
JSON string: quote and backslash get a backslash, the common control
characters get their short forms, other control characters get a
`\u00XX` form, everything else is copied. -/
def jsonEscapeChar (c : Char) : String :=
  if c = '"' then "\\\""
  else if c = '\\' then "\\\\"
  else if c = '\n' then "\\n"
  else if c = '\r' then "\\r"
  else if c = '\t' then "\\t"
  else if c.toNat = 8 then "\\b"
  else if c.toNat = 12 then "\\f"
  else if c.toNat < 32 then
    let hex := fun (n : Nat) => if n < 10 then Char.ofNat (48 + n) else Char.ofNat (97 + n - 10)
    "\\u00" ++ String.mk [hex (c.toNat / 16), hex (c.toNat % 16)]
  else String.singleton c

/-- Serialize a JSON string body (without the surrounding quotes). -/
def jsonEscape (s : String) : String :=
  String.join (s.toList.map jsonEscapeChar)

mutual
/-- Compact serialization of a `JValue`, as `serde_json::Value::to_string`
produces it (no whitespace). -/
def jsonToString : JValue → String
  | .null => "null"
  | .bool true => "true"
  | .bool false => "false"
  | .num n => toString n
  | .str s => "\"" ++ jsonEscape s ++ "\""
  | .arr xs => "[" ++ jsonListToString xs ++ "]"
  | .obj fields => "\x7b" ++ jsonFieldsToString fields ++ "\x7d"

/-- Comma-separated serialization of array elements. -/
def jsonListToString : List JValue → String
  | [] => ""
  | [x] => jsonToString x
  | x :: xs => jsonToString x ++ "," ++ jsonListToString xs

/-- Comma-separated serialization of object fields. -/
def jsonFieldsToString : List (String × JValue) → String
  | [] => ""
  | [(k, v)] => "\"" ++ jsonEscape k ++ "\":" ++ jsonToString v
  | (k, v) :: fs => "\"" ++ jsonEscape k ++ "\":" ++ jsonToString v ++ "," ++ jsonFieldsToString fs
end

/-- The host error enum `Error` from `main.rs`. The wrapped payloads of
`WindowsError` and `JsonError` are kept as their debug rendering, which is
all the program ever does with them. -/
inductive RError where
  | windowsError (dbg : String)
  | jsonError (dbg : String)
  | callbackError (msg : String)
  | taskCanceled
  | lockError
  | sendError
deriving DecidableEq, Repr

/-- Escape one character the way Rust `Debug` for `str` escapes it
(`escape_debug`): quote and backslash get a backslash, newline, carriage
return and tab get their short forms, other control characters get a
`\u{...}` form. -/
def rustDebugEscapeChar (c : Char) : String :=
  if c = '"' then "\\\""
  else if c = '\\' then "\\\\"
  else if c = '\n' then "\\n"
  else if c = '\r' then "\\r"
  else if c = '\t' then "\\t"
  else if c.toNat < 32 then
    let hex := fun (n : Nat) => if n < 10 then Char.ofNat (48 + n) else Char.ofNat (97 + n - 10)
    "\\u\x7b" ++ String.mk [hex (c.toNat / 16), hex (c.toNat % 16)] ++ "\x7d"
  else String.singleton c

/-- Rust `Debug` rendering of a `String` value: quoted and escaped. -/
def rustDebugStr (s : String) : String :=
  "\"" ++ String.join (s.toList.map rustDebugEscapeChar) ++ "\""

/-- `format!("\x7b:#?\x7d", err)` on the derived `Debug` of `Error`:
pretty-printed, so a one-field tuple variant renders as
`Name(\n    field,\n)` and a unit variant as its bare name. -/
def renderError : RError → String
  | .windowsError dbg => "WindowsError(\n    " ++ dbg ++ ",\n)"
  | .jsonError dbg => "JsonError(\n    " ++ dbg ++ ",\n)"
  | .callbackError msg => "CallbackError(\n    " ++ rustDebugStr msg ++ ",\n)"
  | .taskCanceled => "TaskCanceled"
  | .lockError => "LockError"
  | .sendError => "SendError"

/-- The wire record `InvokeMessage \x7b id: u64, method: String,
params: Vec<Value> \x7d` decoded from script-originated messages. -/
structure InvokeMessage where
  id : Nat
  method : String
  params : List JValue

/-- Look a field up in a decoded JSON object the way serde's derived
deserializer does: the field must be present exactly once (a duplicate
field is a decode error); unknown fields are ignored. -/
def getUniqueField (fields : List (String × JValue)) (k : String) : Option JValue :=
  match fields.filter (fun kv => kv.1 = k) with
  | [kv] => some kv.2
  | _ => none

/-- Decode a JSON number as a `u64`, as serde does for the `id` field:
only a non-negative integer below `2^64` is accepted. -/
def asU64 : JValue → Option Nat
  | .num n => if 0 ≤ n ∧ n < 2 ^ 64 then some n.toNat else none
  | _ => none

/-- Decode a JSON value as a string, for the `method` field. -/
def asString : JValue → Option String
  | .str s => some s
  | _ => none

/-- Decode a JSON value as an array, for the `params` field. -/
def asArray : JValue → Option (List JValue)
  | .arr xs => some xs
  | _ => none

/-- `serde_json::from_str::<InvokeMessage>` on the JSON text of a message,
modelled on the already-parsed JSON value: the message must be an object
with an `id` field holding a `u64`, a `method` field holding a string and
a `params` field holding an array; anything else is a decode failure. -/
def decodeInvokeMessage : JValue → Option InvokeMessage
  | .obj fields => do
      let idv ← getUniqueField fields "id"
      let mv ← getUniqueField fields "method"
      let pv ← getUniqueField fields "params"
      let id ← asU64 idv
      let method ← asString mv
      let params ← asArray pv
      pure ⟨id, method, params⟩
  | _ => none

/-- The data captured by the closure that `WebView::resolve` hands to
`WebView::dispatch`: the call id, the status code, and the result already
serialized by `result.to_string()` at the time `resolve` runs. -/
structure DispatchEntry where
  id : Nat
  status : Int
  serialized : String
deriving DecidableEq, Repr

/-- A unit of work on the dispatch queue (`Box<dyn FnOnce(WebView) + Send>`):
either the resolution closure built by `WebView::resolve`, or the
`PostQuitMessage(0)` closure posted by `WebView::terminate`. -/
inductive HostWork where
  | evalResolution (e : DispatchEntry)
  | postQuit
deriving DecidableEq, Repr

/-- Outcome of a call into the host API: the `Result` value it returns, or
a panic (from `expect`/`unwrap`), which never returns at all. For
`dispatch`-like calls the success case carries the new queue contents and
whether the `WM_APP` wake message was posted to the owning thread. -/
inductive DispatchResult (α : Type) where
  | ok (queue : List α) (wakePosted : Bool)
  | err (e : RError)
  | panicked (msg : String)
deriving DecidableEq, Repr

/-- Whether a `DispatchResult` is an `Err` return. -/
def DispatchResult.isErr : DispatchResult α → Bool
  | .err _ => true
  | _ => false

/-- `WebView::dispatch`: `self.tx.send(Box::new(f)).expect("send the fn")`
followed by `PostThreadMessageA(self.thread_id, WM_APP, 0, 0)`.
`mpsc::Sender::send` fails exactly when the receiving end has been
dropped; `expect` turns that failure into a panic, so `dispatch` either
appends the closure to the channel's FIFO and posts the wake message
(its `PostThreadMessageA` result is ignored), or panics. -/
def WebView.dispatch (receiverAlive : Bool) (q : List α) (w : α) : DispatchResult α :=
  if receiverAlive then .ok (q ++ [w]) true else .panicked "send the fn"

/-- `WebView::resolve`: serializes `result` with `to_string()` and
dispatches a closure capturing `(id, status, serialized)`. -/
def WebView.resolve (receiverAlive : Bool) (q : List HostWork) (id : Nat) (status : Int)
    (result : JValue) : DispatchResult HostWork :=
  WebView.dispatch receiverAlive q (.evalResolution ⟨id, status, jsonToString result⟩)

/-- The script the resolution closure builds and passes to `eval` when the
message loop later runs it: the `format!` call inside `WebView::resolve`,
with `method` chosen by `match status \x7b 0 => "resolve", _ => "reject" \x7d`. -/
def entryScript (e : DispatchEntry) : String :=
  "\n                window._rpc[" ++ toString e.id ++ "]." ++
    (if e.status = 0 then "resolve" else "reject") ++ "(" ++ e.serialized ++
    ");\n                window._rpc[" ++ toString e.id ++ "] = undefined;"

/-- A host callback registered with `bind`: `FnMut(Vec<Value>) -> Result<Value>`,
modelled as a pure function from the argument list to a result or error. -/
def BindingCallback : Type := List JValue → Except RError JValue

/-- The `BindingsMap` (`HashMap<String, BindingCallback>`), modelled as an
association list where lookup takes the first hit and insertion replaces. -/
def BindingsMap : Type := List (String × BindingCallback)

/-- `HashMap::get_mut` on the bindings map. -/
def lookupBinding (b : BindingsMap) (name : String) : Option BindingCallback :=
  match b.find? (fun kv => kv.1 = name) with
  | some kv => some kv.2
  | none => none

/-- What the `WebMessageReceivedEventHandler` closure leaves behind: the
bindings map as the handler released it, the list of callback invocations
it performed (method name and params, in order), and the dispatch queue
contents after any resolution was submitted. -/
structure HandlerOutput where
  bindings : BindingsMap
  invoked : List (String × List JValue)
  queue : List HostWork

/-- The `WebMessageReceivedEventHandler` closure registered in
`WebView::create`: decode the message JSON into an `InvokeMessage`
(failure is silently ignored), `try_lock` the bindings map (`lockOk`
says whether the lock is free; contention drops the message), look up
`method` (absence does nothing), invoke the callback, and submit the
resolution via `bound.resolve(..).unwrap()` — status `0` with the value
on success, status `1` with `Value::String(format!("\x7b:#?\x7d", err))` on
error. `none` models the `unwrap` panicking because `resolve` panicked. -/
def handleWebMessage (b : BindingsMap) (lockOk receiverAlive : Bool) (q : List HostWork)
    (msg : JValue) : Option HandlerOutput :=
  match decodeInvokeMessage msg with
  | none => some ⟨b, [], q⟩
  | some v =>
    if lockOk then
      match lookupBinding b v.method with
      | none => some ⟨b, [], q⟩
      | some f =>
        match f v.params with
        | .ok result =>
          match WebView.resolve receiverAlive q v.id 0 result with
          | .ok q2 _ => some ⟨b, [(v.method, v.params)], q2⟩
          | _ => none
        | .error err =>
          match WebView.resolve receiverAlive q v.id 1 (.str (renderError err)) with
          | .ok q2 _ => some ⟨b, [(v.method, v.params)], q2⟩
          | _ => none
    else some ⟨b, [], q⟩

/-- `mpsc::Receiver::try_recv` on a FIFO channel. -/
def tryRecv : List α → Option (α × List α)
  | [] => none
  | x :: xs => some (x, xs)

/-- The drain phase at the top of the `WebView::run` message loop:
`while let Ok(f) = self.rx.try_recv() \x7b (f)(self.clone()); \x7d` — pops
queued closures one at a time and executes each synchronously; the result
is the sequence of closures in execution order. -/
def drainAll : List α → List α
  | [] => []
  | x :: xs => x :: drainAll xs

/-- One loop step of the drain phase is exactly a `tryRecv` pop: the loop
ends when `tryRecv` reports the queue empty, otherwise it executes the
popped closure and continues on the rest. -/
theorem drainAll_eq_tryRecv (q : List α) :
    drainAll q = match tryRecv q with
      | none => []
      | some (x, rest) => x :: drainAll rest := by
  cases q <;> rfl

/-- One result of `GetMessageA` as seen by `wait_with_pump`, together with
what dispatching the retrieved message does to the bridge's one-shot
channel: `fatal` is a `-1` return (fatal platform error), `quit` is a `0`
return (`WM_QUIT`), `deliver a` is a message whose dispatch runs the
completion callback and sends `a` into the channel, and `other` is any
other message, translated and dispatched with no effect on the channel. -/
inductive PumpEvent (α : Type) where
  | fatal
  | quit
  | deliver (a : α)
  | other

/-- What a run of `wait_with_pump` does on a given message schedule:
return a value, return an error, or block forever inside `GetMessageA`
because the schedule is exhausted while the channel is still empty. -/
inductive PumpResult (α : Type) where
  | ok (a : α)
  | err (e : RError)
  | blocked

/-- `wait_with_pump(rx)`: loop \x7b if `rx.try_recv()` yields a value,
return it; otherwise retrieve the next message: `-1` returns the Win32
error, `0` returns `Error::TaskCanceled`, anything else is translated and
dispatched (possibly delivering into the channel) and the loop repeats. \x7d
The channel starts as `chan` and the successive `GetMessageA` results are
the schedule `evs`. -/
def wait_with_pump : Option α → List (PumpEvent α) → PumpResult α
  | some a, _ => .ok a
  | none, [] => .blocked
  | none, .fatal :: _ => .err (.windowsError "from_win32")
  | none, .quit :: _ => .err .taskCanceled
  | none, .deliver a :: evs => wait_with_pump (some a) evs
  | none, .other :: evs => wait_with_pump none evs

/-- `SetWindowLong(hwnd, GWLP_USERDATA, ...)` as used by
`WebView::set_window_webview`: store the new association (`none` stores a
null pointer) and return what was stored before; a previously stored
webview is reconstructed with `Box::from_raw` and returned (reclaimed).
Sessions are identified by an opaque token. -/
def WebView.set_window_webview (slot : Option Nat) (webview : Option Nat) :
    Option Nat × Option Nat :=
  (webview, slot)

/-- The state `WebView::terminate` touches: whether the dispatch channel's
receiver is still alive, the queued closures, whether this session owns a
frame window, and the window's `GWLP_USERDATA` slot holding the
session association. -/
structure TermState where
  receiverAlive : Bool
  queue : List HostWork
  hasFrame : Bool
  windowSlot : Option Nat

/-- `WebView::terminate`: dispatch a closure that calls
`PostQuitMessage(0)` (propagating `dispatch`'s outcome with `?`, so a
panic in `dispatch` never returns), then, when the session owns a frame
window, clear the window association with
`set_window_webview(self.get_window(), None)`, reclaiming whatever
reference was stored there; finally return `Ok(())`. The second
component of the result is the reclaimed association, the third is the
call's outcome. -/
def WebView.terminate (s : TermState) : TermState × Option Nat × DispatchResult HostWork :=
  match WebView.dispatch s.receiverAlive s.queue HostWork.postQuit with
  | .ok q2 wake =>
    if s.hasFrame then
      match WebView.set_window_webview s.windowSlot none with
      | (newSlot, reclaimed) =>
        ({ s with queue := q2, windowSlot := newSlot }, reclaimed, .ok q2 wake)
    else ({ s with queue := q2 }, none, .ok q2 wake)
  | .err e => (s, none, .err e)
  | .panicked m => (s, none, .panicked m)

/-- The controller bounds rectangle passed to `put_Bounds`. -/
structure Bounds where
  left : Int
  top : Int
  right : Int
  bottom : Int
deriving DecidableEq, Repr

/-- The state `WebView::set_title` and `WebView::set_size` touch: whether
the session owns a frame window, the frame's stored size
(`frame.size` mutex), the frame window's text, the controller bounds, and
the frame window's on-screen size (set through `SetWindowPos` with
`SWP_NOMOVE`, so only the size changes). -/
structure UIState where
  hasFrame : Bool
  storedSize : Int × Int
  windowText : String
  controllerBounds : Bounds
  windowSize : Int × Int
deriving DecidableEq, Repr

/-- `WebView::set_title`: `if let Some(frame) = self.frame.as_ref()`, set
the frame window's text; in either case return `Ok(self)` (`true` marks
the `Ok` return). -/
def WebView.set_title (s : UIState) (title : String) : UIState × Bool :=
  if s.hasFrame then ({ s with windowText := title }, true) else (s, true)

/-- `WebView::set_size`: when the session owns a frame window, store the
new size in the frame's size mutex, set the controller bounds to
`(0, 0, width, height)` and resize the window with `SetWindowPos`
(`SWP_NOACTIVATE | SWP_NOZORDER | SWP_NOMOVE`); otherwise do nothing.
Returns `Ok(self)` either way (`true` marks the `Ok` return). -/
def WebView.set_size (s : UIState) (width height : Int) : UIState × Bool :=
  if s.hasFrame then
    ({ s with
        storedSize := (width, height),
        controllerBounds := ⟨0, 0, width, height⟩,
        windowSize := (width, height) }, true)
  else (s, true)

/-! ## The example binding used to instantiate hypothesis-bearing theorems -/

/-- The calculator callback bound in `main`: `hostCallback("Add", a, b)`
modulo restriction to the integral case; used below to instantiate the
handler theorems on concrete inputs. -/
def exampleAdd : BindingCallback := fun ps =>
  match ps with
  | [JValue.num a, JValue.num b] => Except.ok (JValue.num (a + b))
  | _ => Except.error (RError.callbackError "Usage: window.hostCallback(a, b)")

/-- A bindings map holding the single example callback under `"Add"`. -/
def exampleBindings : BindingsMap := [("Add", exampleAdd)]

/-- The wire message `\x7b"id":1,"method":"Add","params":[2,6]\x7d`. -/
def exampleMsg : JValue :=
  JValue.obj [("id", JValue.num 1), ("method", JValue.str "Add"),
              ("params", JValue.arr [JValue.num 2, JValue.num 6])]

/-! ## Claims -/

/-- C1: for every wire message that decodes to a valid `InvokeMessage`
whose method has a registered callback, with the registry lock acquired,
the message-received handler produces exactly one resolution — appended
as the single new dispatch-queue entry — which is a resolve (status `0`,
carrying the callback's value) when the callback returns a value and a
reject (status `1`) when it returns an error, and which carries the same
`id` as the incoming `InvokeMessage`. -/
theorem handler_registered_unique_resolution
    (b : BindingsMap) (q : List HostWork) (msg : JValue) (v : InvokeMessage)
    (f : BindingCallback)
    (hdec : decodeInvokeMessage msg = some v)
    (hlook : lookupBinding b v.method = some f) :
    ∃ e : DispatchEntry,
      handleWebMessage b true true q msg =
        some ⟨b, [(v.method, v.params)], q ++ [HostWork.evalResolution e]⟩ ∧
      e.id = v.id ∧
      (∀ r, f v.params = Except.ok r → e = ⟨v.id, 0, jsonToString r⟩) ∧
      (∀ err, f v.params = Except.error err →
        e = ⟨v.id, 1, jsonToString (JValue.str (renderError err))⟩) := by
  unfold handleWebMessage
  rw [hdec]
  simp only [if_true, hlook]
  cases hres : f v.params with
  | ok r =>
    refine ⟨⟨v.id, 0, jsonToString r⟩, ?_, rfl, ?_, ?_⟩
    · simp [WebView.resolve, WebView.dispatch]
    · intro r2 h2; cases h2; rfl
    · intro err h2; cases h2
  | error err =>
    refine ⟨⟨v.id, 1, jsonToString (JValue.str (renderError err))⟩, ?_, rfl, ?_, ?_⟩
    · simp [WebView.resolve, WebView.dispatch]
    · intro r2 h2; cases h2
    · intro err2 h2; cases h2; rfl

/-- C1 witness: the example message against the example bindings yields
exactly one resolution for id 1. -/
theorem handler_registered_unique_resolution_witness :
    ∃ e : DispatchEntry,
      handleWebMessage exampleBindings true true [] exampleMsg =
        some ⟨exampleBindings, [("Add", [JValue.num 2, JValue.num 6])],
              [] ++ [HostWork.evalResolution e]⟩ ∧
      e.id = (1 : Nat) ∧
      (∀ r, exampleAdd [JValue.num 2, JValue.num 6] = Except.ok r →
        e = ⟨1, 0, jsonToString r⟩) ∧
      (∀ err, exampleAdd [JValue.num 2, JValue.num 6] = Except.error err →
        e = ⟨1, 1, jsonToString (JValue.str (renderError err))⟩) :=
  handler_registered_unique_resolution exampleBindings [] exampleMsg
    ⟨1, "Add", [JValue.num 2, JValue.num 6]⟩ exampleAdd rfl rfl

/-- C2: every call `resolve(id, status, result)` submits exactly one unit
of work through the dispatch queue, capturing the JSON-serialized result;
when the message loop runs it, the script it evaluates looks up
`window._rpc[id]`, calls `.resolve` on it when `status = 0` and `.reject`
when `status ≠ 0` with the serialized result, then clears the table entry
(`window._rpc[id] = undefined`); and on the handler's callback-failure
path the rejected payload is the callback's error rendered as a string. -/
theorem resolve_script_contract (q : List HostWork) (id : Nat) (status : Int)
    (result : JValue) :
    WebView.resolve true q id status result =
      DispatchResult.ok (q ++ [HostWork.evalResolution ⟨id, status, jsonToString result⟩])
        true ∧
    entryScript ⟨id, status, jsonToString result⟩ =
      "\n                window._rpc[" ++ toString id ++ "]." ++
        (if status = 0 then "resolve" else "reject") ++
        "(" ++ jsonToString result ++ ");\n                window._rpc[" ++
        toString id ++ "] = undefined;" ∧
    (∀ (b : BindingsMap) (q0 : List HostWork) (msg : JValue) (v : InvokeMessage)
        (f : BindingCallback) (err : RError),
      decodeInvokeMessage msg = some v → lookupBinding b v.method = some f →
      f v.params = Except.error err →
      handleWebMessage b true true q0 msg =
        some ⟨b, [(v.method, v.params)],
              q0 ++ [HostWork.evalResolution
                ⟨v.id, 1, jsonToString (JValue.str (renderError err))⟩]⟩) := by
  refine ⟨by simp [WebView.resolve, WebView.dispatch], rfl, ?_⟩
  intro b q0 msg v f err hdec hlook hres
  unfold handleWebMessage
  rw [hdec]
  simp only [if_true, hlook, hres]
  simp [WebView.resolve, WebView.dispatch]

/-- C2 witness: `resolve(1, 0, 8)` enqueues the entry whose script
resolves id 1 with `8` and clears the table entry. -/
theorem resolve_script_contract_witness :
    WebView.resolve true [] 1 0 (JValue.num 8) =
      DispatchResult.ok
        ([] ++ [HostWork.evalResolution ⟨1, 0, jsonToString (JValue.num 8)⟩]) true :=
  (resolve_script_contract [] 1 0 (JValue.num 8)).1

/-- The channel is polled before any message retrieval: a pre-filled
channel returns immediately whatever the schedule holds. -/
theorem wait_with_pump_prefilled {α : Type} (a : α) (evs : List (PumpEvent α)) :
    wait_with_pump (some a) evs = PumpResult.ok a := by
  cases evs with
  | nil => rfl
  | cons e evs => cases e <;> rfl

/-- C3: `wait_with_pump` returns exactly the value the completion callback
delivers into the one-shot channel; if the message loop sees a normal
quit condition while the channel is still empty it returns
`Error::TaskCanceled`; if message retrieval reports a fatal platform
error it returns a platform error; and if the channel already holds a
value it is returned without blocking on any message retrieval, because
the channel is polled before each blocking `GetMessageA` call. -/
theorem wait_with_pump_contract {α : Type} (a : α) (pre rest : List (PumpEvent α))
    (hpre : ∀ e ∈ pre, e = PumpEvent.other) :
    (∀ evs : List (PumpEvent α), wait_with_pump (some a) evs = PumpResult.ok a) ∧
    wait_with_pump none (pre ++ PumpEvent.deliver a :: rest) = PumpResult.ok a ∧
    wait_with_pump none (pre ++ PumpEvent.quit :: rest) =
      PumpResult.err RError.taskCanceled ∧
    wait_with_pump none (pre ++ PumpEvent.fatal :: rest) =
      PumpResult.err (RError.windowsError "from_win32") := by
  induction pre with
  | nil =>
    refine ⟨fun evs => wait_with_pump_prefilled a evs, ?_, rfl, rfl⟩
    show wait_with_pump (some a) rest = PumpResult.ok a
    exact wait_with_pump_prefilled a rest
  | cons e pre ih =>
    have he : e = PumpEvent.other := hpre e (List.mem_cons_self e pre)
    have hpre2 : ∀ e2 ∈ pre, e2 = PumpEvent.other := fun e2 h2 =>
      hpre e2 (List.mem_cons_of_mem e h2)
    obtain ⟨i1, i2, i3, i4⟩ := ih hpre2
    subst he
    exact ⟨fun evs => wait_with_pump_prefilled a evs, i2, i3, i4⟩

/-- C3 witness: with one unrelated message pumped first, the delivered
value 42 is returned, a quit is reported as cancelled, and a fatal
retrieval error is reported as a platform error. -/
theorem wait_with_pump_contract_witness :
    (∀ evs : List (PumpEvent Nat), wait_with_pump (some 42) evs = PumpResult.ok 42) ∧
    wait_with_pump (none : Option Nat)
      ([PumpEvent.other] ++ PumpEvent.deliver 42 :: []) = PumpResult.ok 42 ∧
    wait_with_pump (none : Option Nat)
      ([PumpEvent.other] ++ PumpEvent.quit :: []) =
      PumpResult.err RError.taskCanceled ∧
    wait_with_pump (none : Option Nat)
      ([PumpEvent.other] ++ PumpEvent.fatal :: []) =
      PumpResult.err (RError.windowsError "from_win32") :=
  wait_with_pump_contract 42 [PumpEvent.other] []
    (by intro e he; simp at he; exact he)

/-- C4: when the bindings `try_lock` fails, the handler drops the message
entirely: the bindings map is released unchanged, no callback is invoked,
no resolution is submitted to the dispatch queue, and the handler still
returns without surfacing any error. -/
theorem handler_drops_on_contention
    (b : BindingsMap) (receiverAlive : Bool) (q : List HostWork) (msg : JValue)
    (v : InvokeMessage) (hdec : decodeInvokeMessage msg = some v) :
    handleWebMessage b false receiverAlive q msg = some ⟨b, [], q⟩ := by
  unfold handleWebMessage
  rw [hdec]
  simp

/-- C4 witness: the example message is dropped under lock contention. -/
theorem handler_drops_on_contention_witness :
    handleWebMessage exampleBindings false true [] exampleMsg =
      some ⟨exampleBindings, [], []⟩ :=
  handler_drops_on_contention exampleBindings true [] exampleMsg
    ⟨1, "Add", [JValue.num 2, JValue.num 6]⟩ rfl

/-- C5: for a valid `InvokeMessage` whose method has no registered
callback, the handler does nothing: no callback runs, the dispatch queue
is untouched (so no resolution script is generated and the page-side
promise stays pending), and no error is surfaced. -/
theorem handler_unregistered_noop
    (b : BindingsMap) (receiverAlive : Bool) (q : List HostWork) (msg : JValue)
    (v : InvokeMessage) (hdec : decodeInvokeMessage msg = some v)
    (hnone : lookupBinding b v.method = none) :
    handleWebMessage b true receiverAlive q msg = some ⟨b, [], q⟩ := by
  unfold handleWebMessage
  rw [hdec]
  simp [hnone]

/-- C5 witness: a message invoking the unregistered method `"Sub"` leaves
everything unchanged. -/
theorem handler_unregistered_noop_witness :
    handleWebMessage exampleBindings true true []
      (JValue.obj [("id", JValue.num 7), ("method", JValue.str "Sub"),
                   ("params", JValue.arr [])]) =
      some ⟨exampleBindings, [], []⟩ :=
  handler_unregistered_noop exampleBindings true []
    (JValue.obj [("id", JValue.num 7), ("method", JValue.str "Sub"),
                 ("params", JValue.arr [])])
    ⟨7, "Sub", []⟩ rfl rfl

/-- C6: a raw message that does not decode into an `InvokeMessage` is
silently discarded: no callback is invoked, no resolution is produced
(the dispatch queue — and with it every previously submitted resolution —
is unchanged), the bindings map is unchanged, and no error is raised. -/
theorem handler_malformed_ignored
    (b : BindingsMap) (lockOk receiverAlive : Bool) (q : List HostWork) (msg : JValue)
    (hdec : decodeInvokeMessage msg = none) :
    handleWebMessage b lockOk receiverAlive q msg = some ⟨b, [], q⟩ := by
  unfold handleWebMessage
  rw [hdec]

/-- C6 witness: the JSON string `"hello"` is not an `InvokeMessage`
object and is ignored even with a pending resolution already queued. -/
theorem handler_malformed_ignored_witness :
    handleWebMessage exampleBindings true true
      [HostWork.evalResolution ⟨1, 0, "8"⟩] (JValue.str "hello") =
      some ⟨exampleBindings, [], [HostWork.evalResolution ⟨1, 0, "8"⟩]⟩ :=
  handler_malformed_ignored exampleBindings true true
    [HostWork.evalResolution ⟨1, 0, "8"⟩] (JValue.str "hello") rfl

/-- C7 (amended): `dispatch` is non-blocking — it appends the closure to
the channel and posts the reserved `WM_APP` wake message, returning
success, whenever the receiving end is alive; when the channel is severed
it panics (`expect("send the fn")`) rather than returning an error; on no
path does it return an `Err`. -/
theorem dispatch_contract {α : Type} (receiverAlive : Bool) (q : List α) (w : α) :
    (receiverAlive = true → WebView.dispatch receiverAlive q w =
      DispatchResult.ok (q ++ [w]) true) ∧
    (receiverAlive = false → WebView.dispatch receiverAlive q w =
      DispatchResult.panicked "send the fn") ∧
    (WebView.dispatch receiverAlive q w).isErr = false := by
  cases receiverAlive with
  | true =>
    exact ⟨fun _ => rfl, fun h => absurd h (by simp), rfl⟩
  | false =>
    exact ⟨fun h => absurd h (by simp), fun _ => rfl, rfl⟩

/-- C7 witness: with the receiver alive, dispatching appends the closure
and posts the wake message. -/
theorem dispatch_contract_witness :
    WebView.dispatch true ([] : List HostWork) HostWork.postQuit =
      DispatchResult.ok [HostWork.postQuit] true :=
  (dispatch_contract true [] HostWork.postQuit).1 rfl

/-- C7 counterexample: on a severed channel `dispatch` does not return an
error — it panics inside `expect("send the fn")` — refuting the claim
that a severed channel makes `dispatch` return an error. -/
theorem dispatch_severed_panics_not_err :
    (WebView.dispatch false ([] : List HostWork) HostWork.postQuit).isErr = false ∧
    WebView.dispatch false ([] : List HostWork) HostWork.postQuit =
      DispatchResult.panicked "send the fn" :=
  ⟨rfl, rfl⟩

/-- Draining executes exactly the queued closures in queue order. -/
theorem drainAll_eq_self {α : Type} (q : List α) : drainAll q = q := by
  induction q with
  | nil => rfl
  | cons x xs ih => simp [drainAll, ih]

/-- C8: closures dispatched in the order C1, C2, C3 (from any threads;
`mpsc` serializes the sends into one FIFO) are executed by the message
loop's drain phase in that submission order, after whatever was already
queued, and — when they are distinct and not already queued — each
exactly once. -/
theorem dispatch_fifo_exactly_once (q q1 q2 q3 : List Nat) (c1 c2 c3 : Nat)
    (h1 : WebView.dispatch true q c1 = DispatchResult.ok q1 true)
    (h2 : WebView.dispatch true q1 c2 = DispatchResult.ok q2 true)
    (h3 : WebView.dispatch true q2 c3 = DispatchResult.ok q3 true)
    (hn1 : c1 ∉ q) (hn2 : c2 ∉ q) (hn3 : c3 ∉ q)
    (d12 : c1 ≠ c2) (d13 : c1 ≠ c3) (d23 : c2 ≠ c3) :
    drainAll q3 = drainAll q ++ [c1, c2, c3] ∧
    (drainAll q3).count c1 = 1 ∧
    (drainAll q3).count c2 = 1 ∧
    (drainAll q3).count c3 = 1 := by
  simp only [WebView.dispatch, if_true, DispatchResult.ok.injEq, and_true] at h1 h2 h3
  subst h1; subst h2; subst h3
  rw [drainAll_eq_self, drainAll_eq_self]
  refine ⟨by simp, ?_, ?_, ?_⟩
  · simp [List.count_append, List.count_cons, List.count_eq_zero.mpr hn1, d12, d13]
  · simp [List.count_append, List.count_cons, List.count_eq_zero.mpr hn2, Ne.symm d12, d23]
  · simp [List.count_append, List.count_cons, List.count_eq_zero.mpr hn3, Ne.symm d13,
      Ne.symm d23]

/-- C8 witness: dispatching 10, 20, 30 onto an empty queue drains as
[10, 20, 30], each exactly once. -/
theorem dispatch_fifo_exactly_once_witness :
    drainAll [10, 20, 30] = drainAll [] ++ [10, 20, 30] ∧
    (drainAll [10, 20, 30]).count 10 = 1 ∧
    (drainAll [10, 20, 30]).count 20 = 1 ∧
    (drainAll [10, 20, 30]).count 30 = 1 :=
  dispatch_fifo_exactly_once [] [10] [10, 20] [10, 20, 30] 10 20 30
    rfl rfl rfl (by simp) (by simp) (by simp)
    (by decide) (by decide) (by decide)

/-- C9 counterexample: the second `terminate` is not a no-op — it still
dispatches another `PostQuitMessage(0)` closure, extending the dispatch
queue, so terminating twice is not idempotent on the queue. -/
theorem terminate_second_enqueues_again :
    (WebView.terminate (WebView.terminate ⟨true, [], true, some 5⟩).1).1.queue ≠
      (WebView.terminate ⟨true, [], true, some 5⟩).1.queue := by
  simp [WebView.terminate, WebView.dispatch, WebView.set_window_webview]

/-- C9 (amended): with a live dispatch channel, a frame window and a
stored association, the first `terminate` returns `Ok`, reclaims the
stored session reference and clears the slot; the second `terminate`
also returns `Ok`, finds no stored reference and reclaims nothing — the
association is released exactly once — but it is not a complete no-op:
it enqueues one more quit closure onto the dispatch queue. -/
theorem terminate_idempotent (s : TermState) (r : Nat)
    (halive : s.receiverAlive = true) (hframe : s.hasFrame = true)
    (hslot : s.windowSlot = some r) :
    (WebView.terminate s).2.1 = some r ∧
    (∃ qw, (WebView.terminate s).2.2 = DispatchResult.ok qw true) ∧
    (WebView.terminate s).1.windowSlot = none ∧
    (WebView.terminate (WebView.terminate s).1).2.1 = none ∧
    (∃ qw, (WebView.terminate (WebView.terminate s).1).2.2 =
      DispatchResult.ok qw true) ∧
    (WebView.terminate (WebView.terminate s).1).1.windowSlot = none ∧
    (WebView.terminate (WebView.terminate s).1).1.queue =
      (WebView.terminate s).1.queue ++ [HostWork.postQuit] := by
  simp [WebView.terminate, WebView.dispatch, WebView.set_window_webview,
    halive, hframe, hslot]

/-- C9 witness: a concrete session state is terminated twice; only the
first call reclaims the stored reference. -/
theorem terminate_idempotent_witness :
    (WebView.terminate ⟨true, [], true, some 5⟩).2.1 = some 5 ∧
    (∃ qw, (WebView.terminate ⟨true, [], true, some 5⟩).2.2 =
      DispatchResult.ok qw true) ∧
    (WebView.terminate ⟨true, [], true, some 5⟩).1.windowSlot = none ∧
    (WebView.terminate (WebView.terminate ⟨true, [], true, some 5⟩).1).2.1 = none ∧
    (∃ qw, (WebView.terminate (WebView.terminate ⟨true, [], true, some 5⟩).1).2.2 =
      DispatchResult.ok qw true) ∧
    (WebView.terminate (WebView.terminate ⟨true, [], true, some 5⟩).1).1.windowSlot =
      none ∧
    (WebView.terminate (WebView.terminate ⟨true, [], true, some 5⟩).1).1.queue =
      (WebView.terminate ⟨true, [], true, some 5⟩).1.queue ++ [HostWork.postQuit] :=
  terminate_idempotent ⟨true, [], true, some 5⟩ 5 rfl rfl rfl

/-- C10: on a session created over a caller-supplied parent window (no
owned frame window), `set_title` and `set_size` both return `Ok` and
change nothing: the window text, stored size, controller bounds and
window size are all left as they were. -/
theorem frameless_setters_noop (s : UIState) (hframe : s.hasFrame = false)
    (title : String) (width height : Int) :
    WebView.set_title s title = (s, true) ∧
    WebView.set_size s width height = (s, true) := by
  constructor
  · simp [WebView.set_title, hframe]
  · simp [WebView.set_size, hframe]

/-- C10 witness: a concrete frameless session state is unchanged by
`set_title` and `set_size`. -/
theorem frameless_setters_noop_witness :
    WebView.set_title ⟨false, (0, 0), "t", ⟨0, 0, 0, 0⟩, (0, 0)⟩ "new title" =
      (⟨false, (0, 0), "t", ⟨0, 0, 0, 0⟩, (0, 0)⟩, true) ∧
    WebView.set_size ⟨false, (0, 0), "t", ⟨0, 0, 0, 0⟩, (0, 0)⟩ 640 480 =
      (⟨false, (0, 0), "t", ⟨0, 0, 0, 0⟩, (0, 0)⟩, true) :=
  frameless_setters_noop ⟨false, (0, 0), "t", ⟨0, 0, 0, 0⟩, (0, 0)⟩ rfl "new title" 640 480
